import Mathlib

/-!
# A shallow embedding of the catkit testbed-orchestration code

This file embeds the orchestration layer of the repository (the
`SpeckleNulling` experiment loop, the Standa `Stage` driver, the
`LaserSource` context manager, `modules/general.take_exposures` and the
`PastisModeAmplitudes` experiment) as executable Lean definitions, and
proves properties of them.

The code under scrutiny calls out to unseen helpers (vendor DLLs, the
imaging pipeline, the speckle estimation/fitting routines).  Those helpers
are *inputs* of the orchestration: they are modelled as environment
records of uninterpreted functions, while every piece of control flow,
arithmetic and sequencing that *is* in the excerpted source is translated
faithfully.  Machine floats are modelled as exact rationals; each
function that can raise returns `Except String α` carrying the raised
message; hardware side effects are recorded in an event trace.
-/

/-! ## Python-level utilities -/

/-- Truncation toward zero: Python `int(x)` on a float, and the integer
part computed by `math.modf`. -/
def pyTrunc (q : ℚ) : ℤ := if 0 ≤ q then ⌊q⌋ else ⌈q⌉

/-- `math.modf(x)`: the pair (fractional part, integer part), both carrying
the sign of `x`; the integer part truncates toward zero. -/
def modf (q : ℚ) : ℚ × ℤ := (q - pyTrunc q, pyTrunc q)

/-- Python `range(start, stop, step)` for a positive `step`. -/
def pyRange (start stop step : ℤ) : List ℤ :=
  (List.range ((stop - start + step - 1) / step).toNat).map
    (fun (k : ℕ) => start + step * (k : ℤ))

/-- `np.arange(start, stop, step)` for a positive `step`, over exact
rationals: `max 0 ⌈(stop - start) / step⌉` evenly spaced values. -/
def npArange (start stop step : ℚ) : List ℚ :=
  (List.range (Int.toNat ⌈(stop - start) / step⌉)).map
    (fun (k : ℕ) => start + step * (k : ℚ))

/-! ## Shared hicat types

`quantity(value, unit)` and `SinSpecification` from `hicat_types`. -/

/-- The units of measure appearing in the excerpted code. -/
inductive PhysUnit
  | nanometer
  | millisecond
deriving DecidableEq, Repr

/-- `quantity(value, unit)`. -/
structure Quantity where
  value : ℚ
  unit : PhysUnit
deriving DecidableEq, Repr

/-- `SinSpecification(angle, ncycles, peak_to_valley, phase)`. -/
structure SinSpecification where
  angle : ℚ
  ncycles : ℚ
  peak_to_valley : Quantity
  phase : ℚ
deriving DecidableEq, Repr

/-! ## SpeckleNulling.experiment

`src/SpeckleNulling.py`.  The DM command data array is a `List ℚ`; numpy
element-wise `+=` is `List.zipWith (+)`.  The unseen estimation helpers
(`speckle_nulling.*`, the data array produced by `sin_command`) are an
environment, indexed by the loop iteration where the source calls them
with iteration-dependent arguments. -/

/-- Results of the unseen helpers called from `SpeckleNulling.experiment`,
per loop iteration `i`.  These functions are not part of the excerpted
source; only *when* and *with what* they are called is modelled. -/
structure SpeckleEnv where
  /-- `speckle_nulling.test_dark_zone_intensity(auto_exposure_time, 2, ...)`:
  the updated exposure time returned at iteration `i`. -/
  test_dark_zone_intensity : ℕ → Quantity → Quantity
  /-- `speckle_nulling.speckle_sensing(coron_path)` at iteration `i`:
  the triple `(ncycles_new, angle_deg_new, peak_to_valley_new)`. -/
  speckle_sensing : ℕ → ℚ × ℚ × Quantity
  /-- `speckle_nulling.speckle_control_phase(iteration_path, exp_set_name)`
  at iteration `i`: the fitted phase. -/
  speckle_control_phase : ℕ → ℚ
  /-- `speckle_nulling.speckle_control_amplitude(iteration_path, exp_set_name)`
  at iteration `i`: the fitted amplitude (a bare number; the source wraps
  it in `quantity(·, units.nanometer)`). -/
  speckle_control_amplitude : ℕ → ℚ
  /-- The data array of `sin_command(spec)` built with no `initial_data`,
  as used for the correction command at line 171. -/
  sin_data : SinSpecification → List ℚ

/-- One hardware / helper call made by `SpeckleNulling.experiment`, in
program order. -/
inductive SpeckleEvent
  /-- `dm.apply_shape(current_command_object, 1)` with the given data. -/
  | applyShape (data : List ℚ)
  /-- `speckle_nulling.test_dark_zone_intensity(...)`. -/
  | testDarkZone
  /-- `dm.apply_shape(new_command, 1)` where `new_command` is
  `sin_command(spec, ..., initial_data=current_command_object.data)`. -/
  | applyProbe (spec : SinSpecification) (initialData : List ℚ)
  /-- `testbed.run_hicat_imaging(exposure, ..., path=path, ...)`. -/
  | image (exposure : Quantity) (path : String)
  /-- `speckle_nulling.speckle_sensing(coron_path)`. -/
  | sense (path : String)
  /-- `speckle_nulling.speckle_control_phase(...)`. -/
  | controlPhase
  /-- `speckle_nulling.speckle_control_amplitude(...)`. -/
  | controlAmplitude
  /-- `current_command_object.data += sin_command(spec).data` (line 173). -/
  | accumulate (spec : SinSpecification)
deriving DecidableEq, Repr

/-- Lines 123-139: the phase-diverse sweep.  For each `phi` in
`range(0, 360, 30)` a sine command at phase `phi` (folding in the current
DM command as `initial_data`) is applied, then one image is taken. -/
def phaseSweepTrace (iterPath : String) (exposure : Quantity)
    (angle ncycles : ℚ) (ptv : Quantity) (cur : List ℚ) : List SpeckleEvent :=
  (pyRange 0 360 30).flatMap (fun phi =>
    [.applyProbe ⟨angle, ncycles, ptv, (phi : ℚ)⟩ cur,
     .image exposure (iterPath ++ "/phase" ++ toString phi)])

/-- Lines 144-164: the amplitude sweep.  For each coefficient in
`np.arange(0.1, 2.0, 0.3)` a sine command at the fitted phase with
peak-to-valley `peak_to_valley_new * coeff` is applied, then one image is
taken. -/
def amplitudeSweepTrace (iterPath : String) (exposure : Quantity)
    (angle ncycles : ℚ) (ptv : Quantity) (newPhase : ℚ) (cur : List ℚ) :
    List SpeckleEvent :=
  (npArange (1/10) 2 (3/10)).flatMap (fun c =>
    [.applyProbe ⟨angle, ncycles, ⟨ptv.value * c, ptv.unit⟩, newPhase⟩ cur,
     .image exposure (iterPath ++ "/amplitude" ++ toString c)])

/-- Lines 99-173: one iteration `i` of the main loop.  Returns the event
trace, the updated DM command data and the updated auto exposure time. -/
def speckleIteration (env : SpeckleEnv) (path exp_set_name : String)
    (i : ℕ) (cur : List ℚ) (expTime : Quantity) :
    List SpeckleEvent × List ℚ × Quantity :=
  let expTime2 := env.test_dark_zone_intensity i expTime
  let iterPath := path ++ "/iteration" ++ toString i
  let coronPath := iterPath ++ "/" ++ exp_set_name
  let sensed := env.speckle_sensing i
  let ncycles := sensed.1
  let angle := sensed.2.1
  let ptv := sensed.2.2
  let newPhase := env.speckle_control_phase i
  let newAmplitude : Quantity := ⟨env.speckle_control_amplitude i, .nanometer⟩
  let corrSpec : SinSpecification := ⟨angle, ncycles, newAmplitude, newPhase⟩
  ([.applyShape cur, .testDarkZone, .image expTime2 iterPath, .sense coronPath]
     ++ phaseSweepTrace iterPath expTime2 angle ncycles ptv cur
     ++ [.controlPhase]
     ++ amplitudeSweepTrace iterPath expTime2 angle ncycles ptv newPhase cur
     ++ [.controlAmplitude, .accumulate corrSpec],
   List.zipWith (· + ·) cur (env.sin_data corrSpec),
   expTime2)

/-- The loop `for i in range(0, num_iterations)` starting at iteration
index `i` with `n` iterations left. -/
def speckleLoop (env : SpeckleEnv) (path exp_set_name : String) :
    ℕ → ℕ → List ℚ → Quantity → List SpeckleEvent × List ℚ × Quantity
  | _, 0, cur, t => ([], cur, t)
  | i, n + 1, cur, t =>
    let step := speckleIteration env path exp_set_name i cur t
    let rest := speckleLoop env path exp_set_name (i + 1) n step.2.1 step.2.2
    (step.1 ++ rest.1, rest.2)

/-- The state (DM command data, auto exposure time) after `k` iterations,
having started at iteration index `i` in state `(cur, t)`. -/
def speckleStateFrom (env : SpeckleEnv) (path exp_set_name : String)
    (i : ℕ) (cur : List ℚ) (t : Quantity) : ℕ → List ℚ × Quantity
  | 0 => (cur, t)
  | k + 1 =>
    let s := speckleStateFrom env path exp_set_name i cur t k
    (speckleIteration env path exp_set_name (i + k) s.1 s.2).2

/-- `SpeckleNulling.experiment`'s main loop over `num_iterations`
iterations, from the initial command data `cur0` and starting exposure
time `t0`. -/
def speckleExperimentTrace (env : SpeckleEnv) (path exp_set_name : String)
    (num_iterations : ℕ) (cur0 : List ℚ) (t0 : Quantity) :
    List SpeckleEvent × List ℚ × Quantity :=
  speckleLoop env path exp_set_name 0 num_iterations cur0 t0

/-! ### Initial DM command selection (lines 61-80) -/

/-- The three possible starting DM commands of `SpeckleNulling.experiment`. -/
inductive InitialDmCommand
  /-- `DmCommand.load_dm_command(dm_command_path, bias=..., flat_map=...)`. -/
  | loaded (dm_command_path : String) (bias flat_map : Bool)
  /-- `sin_command(initial_speckles, bias=..., flat_map=..., return_shortname=True)`. -/
  | sine (spec : SinSpecification) (bias flat_map : Bool)
  /-- `flat_command(bias=..., flat_map=..., return_shortname=True)`. -/
  | flat (bias flat_map : Bool)
deriving DecidableEq, Repr

/-- Python truthiness of the optional string `dm_command_path`: `None` and
the empty string are falsy. -/
def truthyStr : Option String → Bool
  | none => false
  | some s => !s.isEmpty

/-- Lines 61-80: choose the starting DM command.  `initial_speckles` is an
optional `SinSpecification` (a non-`None` specification is truthy). -/
def initialCommand (dm_command_path : Option String)
    (initial_speckles : Option SinSpecification) (bias flat_map : Bool) :
    InitialDmCommand :=
  if truthyStr dm_command_path then
    .loaded (dm_command_path.getD "") bias flat_map
  else
    match initial_speckles with
    | some spec => .sine spec bias flat_map
    | none => .flat bias flat_map

/-! ## The Standa `Stage` driver

`src/catkit/hardware/standa/stages.py`.  The vendor `pyximc` library is
an environment of uninterpreted call results (`Result.Ok = 0`); each
driver method returns the list of vendor calls it makes together with
its outcome, a raised `RuntimeError` being `Except.error` with the raised
message. -/

namespace Stage

/-- `pyximc.Result.Ok`. -/
def ResultOk : ℤ := 0

/-- The vendor library results observed by the driver.  `get_status` is
indexed by poll count since the driver polls it repeatedly; the struct
fields vendor calls fill in are returned alongside the result code. -/
structure PyximcLib where
  /-- `lib.command_move(device, pos, upos)`. -/
  command_move : ℤ → ℤ → ℤ
  /-- `lib.command_homezero(device)`. -/
  command_homezero : ℤ
  /-- `lib.command_sstp(device)`. -/
  command_sstp : ℤ
  /-- `lib.get_status(device, byref(status))` at the given poll index:
  the result code and the filled-in `MvCmdSts` field. -/
  get_status : ℕ → ℤ × ℤ
  /-- `lib.get_move_settings(...)`: result code, `Speed`, `uSpeed`. -/
  get_move_settings : ℤ × ℤ × ℤ
  /-- `lib.set_move_settings(...)` for the written `Speed`, `uSpeed`. -/
  set_move_settings : ℤ → ℤ → ℤ
  /-- `lib.get_position(...)`: result code, `Position`, `uPosition`,
  `EncPosition`. -/
  get_position : ℤ × ℤ × ℤ × ℤ
  /-- `lib.get_home_settings(...)`: result code (the filled-in settings
  are opaque to the claims). -/
  get_home_settings : ℤ
  /-- `lib.set_home_settings(...)` for the written `HomeDelta`,
  `uHomeDelta`. -/
  set_home_settings : ℤ → ℤ → ℤ

/-- One vendor call, recorded with the arguments the driver computed. -/
inductive VendorCall
  | command_move (pos upos : ℤ)
  | command_homezero
  | command_sstp
  | get_status
  | get_move_settings
  | set_move_settings (speed uspeed : ℤ)
  | get_position
  | get_home_settings
  | set_home_settings (delta udelta : ℤ)
deriving DecidableEq, Repr

/-- `is_moving` reading the status at poll index `k` (lines 232-242):
raises `"get_status() failed"` on a non-Ok result, else reports whether
`MvCmdSts == 129`. -/
def is_moving_at (lib : PyximcLib) (k : ℕ) : List VendorCall × Except String Bool :=
  let st := lib.get_status k
  ([.get_status],
   if st.1 ≠ ResultOk then .error "get_status() failed"
   else .ok (decide (st.2 = 129)))

/-- `Stage.is_moving()` as a standalone call observes poll index 0. -/
def is_moving (lib : PyximcLib) : List VendorCall × Except String Bool :=
  is_moving_at lib 0

/-- Modelled from the spec: `catkit.util.poll_status` is called by
`await_stop` but is not in the excerpt.  Per the spec, waits "are simple
polling loops with fixed timeouts": the status function is polled once
per `poll_interval` until its value is one of `targets`, for at most
`timeout` seconds (hence at most `⌈timeout / poll_interval⌉` polls),
after which the wait times out.  `fuel` is the remaining poll budget and
`k` the current poll index. -/
def pollLoop (targets : List Bool) (lib : PyximcLib) :
    ℕ → ℕ → List VendorCall × Except String Unit
  | _, 0 => ([], .error "Timed out")
  | k, fuel + 1 =>
    match is_moving_at lib k with
    | (tr, .error e) => (tr, .error e)
    | (tr, .ok b) =>
      if b ∈ targets then (tr, .ok ())
      else
        let rest := pollLoop targets lib (k + 1) fuel
        (tr ++ rest.1, rest.2)

/-- Modelled from the spec: `catkit.util.poll_status((False,), is_moving,
timeout, poll_interval)` — poll until `is_moving` is in `targets`. -/
def poll_status (targets : List Bool) (lib : PyximcLib)
    (timeout poll_interval : ℚ) : List VendorCall × Except String Unit :=
  pollLoop targets lib 0 (Int.toNat ⌈timeout / poll_interval⌉)

/-- `Stage.await_stop` (lines 288-295): poll until `is_moving` returns
`False`; the source's defaults are `timeout=10*60`, `poll_interval=1`. -/
def await_stop (lib : PyximcLib) (timeout poll_interval : ℚ) :
    List VendorCall × Except String Unit :=
  poll_status [false] lib timeout poll_interval

/-- `Stage.goto_steps(position, wait)` (lines 139-157): split `position`
with `math.modf`, scale the fraction by 256, send `command_move`, raise
`"command_move() failed"` on a non-Ok result, then `await_stop()` (with
its default arguments) when `wait` is true. -/
def goto_steps (lib : PyximcLib) (position : ℚ) (wait : Bool) :
    List VendorCall × Except String Unit :=
  let m := modf position
  let u_pos := m.1 * 256
  let res := lib.command_move m.2 (pyTrunc u_pos)
  if res ≠ ResultOk then
    ([.command_move m.2 (pyTrunc u_pos)], .error "command_move() failed")
  else if wait then
    let w := await_stop lib (10 * 60) 1
    (.command_move m.2 (pyTrunc u_pos) :: w.1, w.2)
  else
    ([.command_move m.2 (pyTrunc u_pos)], .ok ())

/-- `Stage.get_enc_position` (lines 261-273): raise
`"get_position() failed"` on a non-Ok result, else return the
`EncPosition` field. -/
def get_enc_position (lib : PyximcLib) : List VendorCall × Except String ℤ :=
  let p := lib.get_position
  ([.get_position],
   if p.1 ≠ ResultOk then .error "get_position() failed" else .ok p.2.2.2)

/-- `Stage.get_step_position` (lines 244-259): `Position + uPosition / 256`. -/
def get_step_position (lib : PyximcLib) : List VendorCall × Except String ℚ :=
  let p := lib.get_position
  ([.get_position],
   if p.1 ≠ ResultOk then .error "get_position() failed"
   else .ok ((p.2.1 : ℚ) + (p.2.2.1 : ℚ) / 256))

/-- `Stage.get_position` (lines 275-281): `conversionFactor *
get_enc_position()`. -/
def get_position (lib : PyximcLib) (conversionFactor : ℚ) :
    List VendorCall × Except String ℚ :=
  match get_enc_position lib with
  | (tr, .error e) => (tr, .error e)
  | (tr, .ok enc) => (tr, .ok (conversionFactor * (enc : ℚ)))

/-- `Stage.offset_steps(distance, wait)` (lines 134-137): read the encoder
position, then `goto_steps(current + distance, wait)`. -/
def offset_steps (lib : PyximcLib) (distance : ℚ) (wait : Bool) :
    List VendorCall × Except String Unit :=
  match get_enc_position lib with
  | (tr, .error e) => (tr, .error e)
  | (tr, .ok enc) =>
    let g := goto_steps lib ((enc : ℚ) + distance) wait
    (tr ++ g.1, g.2)

/-- `Stage.goto_real(position, wait)` (lines 163-172):
`goto_steps(position / conversionFactor, wait)`. -/
def goto_real (lib : PyximcLib) (conversionFactor : ℚ) (position : ℚ)
    (wait : Bool) : List VendorCall × Except String Unit :=
  goto_steps lib (position / conversionFactor) wait

/-- `Stage.offset_real(distance, wait)` (lines 159-161):
`offset_steps(distance / conversionFactor, wait)`. -/
def offset_real (lib : PyximcLib) (conversionFactor : ℚ) (distance : ℚ)
    (wait : Bool) : List VendorCall × Except String Unit :=
  offset_steps lib (distance / conversionFactor) wait

/-- The `Unit` enum of the driver (named `StageUnit` here because `Unit`
is taken in Lean). -/
inductive StageUnit
  | STEPS
  | REAL
deriving DecidableEq, Repr

/-- `Stage.absolute_move(position, wait, units)` (lines 174-180).  The
`units` parameter is untyped in Python and compared by identity against
the two enum members; `none` stands for any argument that is neither. -/
def absolute_move (lib : PyximcLib) (conversionFactor : ℚ) (position : ℚ)
    (wait : Bool) (units : Option StageUnit) :
    List VendorCall × Except String Unit :=
  match units with
  | some .STEPS => goto_steps lib position wait
  | some .REAL => goto_real lib conversionFactor position wait
  | none => ([], .error "NotImplementedError")

/-- `Stage.relative_move(distance, wait, units)` (lines 182-188). -/
def relative_move (lib : PyximcLib) (conversionFactor : ℚ) (distance : ℚ)
    (wait : Bool) (units : Option StageUnit) :
    List VendorCall × Except String Unit :=
  match units with
  | some .STEPS => offset_steps lib distance wait
  | some .REAL => offset_real lib conversionFactor distance wait
  | none => ([], .error "NotImplementedError")

/-- `Stage.set_speed(speed)` (lines 190-214): read the move settings
(raising `"get_move_settings() failed"` on a non-Ok result), split
`speed` with `math.modf`, scale the fraction by 256 and write the
settings back (raising `"set_move_settings() failed"` on a non-Ok
result). -/
def set_speed (lib : PyximcLib) (speed : ℚ) :
    List VendorCall × Except String Unit :=
  let g := lib.get_move_settings
  if g.1 ≠ ResultOk then
    ([.get_move_settings], .error "get_move_settings() failed")
  else
    let m := modf speed
    let u_speed := m.1 * 256
    let r := lib.set_move_settings m.2 (pyTrunc u_speed)
    ([.get_move_settings, .set_move_settings m.2 (pyTrunc u_speed)],
     if r ≠ ResultOk then .error "set_move_settings() failed" else .ok ())

/-- `Stage.get_speed()` (lines 216-230): raise
`"get_move_settings() failed"` on a non-Ok result, else return
`(Speed, uSpeed)`. -/
def get_speed (lib : PyximcLib) : List VendorCall × Except String (ℤ × ℤ) :=
  let g := lib.get_move_settings
  ([.get_move_settings],
   if g.1 ≠ ResultOk then .error "get_move_settings() failed"
   else .ok (g.2.1, g.2.2))

/-- `Stage.stop()` (lines 283-286): raise `"Soft stop failed"` on a
non-Ok `command_sstp` result. -/
def stop (lib : PyximcLib) : List VendorCall × Except String Unit :=
  ([.command_sstp],
   if lib.command_sstp ≠ ResultOk then .error "Soft stop failed" else .ok ())

/-- `Stage.home()` (lines 78-106): read the home settings (raising
`"get_home_settings() failed"`), write `HomeDelta`/`uHomeDelta` from
`math.modf(homeOffset)` (raising `"set_home_settings() failed"`), then
`command_homezero` (raising `"command_homezero failed"`). -/
def home (lib : PyximcLib) (homeOffset : ℚ) :
    List VendorCall × Except String Unit :=
  if lib.get_home_settings ≠ ResultOk then
    ([.get_home_settings], .error "get_home_settings() failed")
  else
    let m := modf homeOffset
    let r := lib.set_home_settings m.2 (pyTrunc m.1)
    if r ≠ ResultOk then
      ([.get_home_settings, .set_home_settings m.2 (pyTrunc m.1)],
       .error "set_home_settings() failed")
    else if lib.command_homezero ≠ ResultOk then
      ([.get_home_settings, .set_home_settings m.2 (pyTrunc m.1),
        .command_homezero],
       .error "command_homezero failed")
    else
      ([.get_home_settings, .set_home_settings m.2 (pyTrunc m.1),
        .command_homezero],
       .ok ())

end Stage

/-! ## LaserSource as a context manager

`src/LaserSource.py`.  The object state tracks the laser handle and how
many times `close()` has run; Python `with` semantics are modelled
explicitly: `__enter__` returns `self`, the body runs to a normal value
or a raised exception, and `__exit__` runs in both cases (it returns
`None`, so a raised exception propagates after cleanup). -/

/-- How the body of a `with` block finished. -/
inductive BodyOutcome (α : Type)
  | normal (a : α)
  | raised (msg : String)
deriving DecidableEq, Repr

/-- The `LaserSource` object state.  `laser` is the handle set by
`initialize`; `closeCount` counts calls to the (abstract) `close()`. -/
structure LaserSource where
  config_id : String
  laser : Option ℤ
  closeCount : ℕ
deriving DecidableEq, Repr

namespace LaserSource

/-- `LaserSource.__init__` (lines 14-18): opens the connection, storing
the handle produced by the abstract `initialize`. -/
def init (config_id : String) (handle : ℤ) : LaserSource :=
  { config_id := config_id, laser := some handle, closeCount := 0 }

/-- `LaserSource.__exit__` (lines 24-27): call `close()` once, then set
`self.laser = None`. -/
def exit (s : LaserSource) : LaserSource :=
  { s with laser := none, closeCount := s.closeCount + 1 }

/-- `with LaserSource(...) as laser: body` — construct (opening the
connection), enter (which returns `self`), run the body, and run
`__exit__` whether the body finished normally or raised; the body's
outcome then propagates. -/
def withLaser {α : Type} (config_id : String) (handle : ℤ)
    (body : LaserSource → BodyOutcome α × LaserSource) :
    BodyOutcome α × LaserSource :=
  let s := init config_id handle
  let r := body s
  (r.1, exit r.2)

end LaserSource

/-! ## modules/general.take_exposures

`src/modules/general.py`, lines 123-166.  The hardware side effects are
recorded as a trace; config values and the unseen
`hicat.util.create_data_path` are parameters. -/

/-- One step of `take_exposures`, in program order. -/
inductive GeneralEvent
  /-- `testbed.laser_source()` entered. -/
  | laser_opened
  /-- `laser.set_current(laser_current)`. -/
  | set_current (current : ℤ)
  /-- `testbed.dm_controller()` entered. -/
  | dm_opened
  /-- `dm.apply_shape_to_both(dm1_command_object, dm2_command_object)`. -/
  | apply_shape_to_both
  /-- `testbed.run_hicat_imaging(..., path=path, ..., exposure_set_name=...)`. -/
  | run_hicat_imaging (path : String) (exposure_set_name : String)
  /-- `testbed.dm_controller()` exited. -/
  | dm_closed
  /-- `testbed.laser_source()` exited. -/
  | laser_closed
deriving DecidableEq, Repr

/-- The configuration and unseen-helper inputs of `take_exposures`:
`CONFIG_INI` currents for the `thorlabs_source_mcls1` section and
`hicat.util.create_data_path`. -/
structure GeneralEnv where
  coron_current : ℤ
  direct_current : ℤ
  create_data_path : String → String
deriving Inhabited

/-- `take_exposures(...)` (lines 123-166): resolve the output path and the
default suffix, pick the FPM position / laser current / exposure-set name
from `coronograph`, then — inside the laser and DM scopes — set the laser
current, apply both DM shapes, and run the imaging call. -/
def take_exposures (env : GeneralEnv) (coronograph : Bool)
    (path : Option String) (suffix : Option String)
    (exposure_set_name : Option String) : List GeneralEvent :=
  let resolvedPath :=
    match path with
    | some p => p
    | none =>
      let sfx :=
        match suffix with
        | none => "take_exposures_data"
        | some s => "take_exposures_data_" ++ s
      env.create_data_path sfx
  let laser_current :=
    if coronograph then env.coron_current else env.direct_current
  let esn :=
    match exposure_set_name with
    | some e => e
    | none => if coronograph then "coron" else "direct"
  [.laser_opened, .set_current laser_current, .dm_opened,
   .apply_shape_to_both, .run_hicat_imaging resolvedPath esn,
   .dm_closed, .laser_closed]

/-! ## PastisModeAmplitudes.experiment

`src/pastis/PastisModeAmplitudes.py`, lines 65-123.  The experiment's
measurement helpers are abstract; the guard at lines 88-90 and the
per-amplitude loop at lines 94-119 are modelled. -/

/-- One step of `PastisModeAmplitudes.experiment`, in program order. -/
inductive PastisEvent
  /-- `self.run_flux_normalization(devices)`. -/
  | flux_normalization
  /-- `self.measure_coronagraph_floor(devices)`. -/
  | measure_coronagraph_floor
  /-- `devices["iris_ao"].apply_shape(opd_command)` for amplitude index `i`. -/
  | apply_iris_shape (i : ℕ)
  /-- `self.take_exposure(devices, 'coron', ...)` for amplitude index `i`. -/
  | take_exposure (i : ℕ)
deriving DecidableEq, Repr

/-- The observable outcome of `PastisModeAmplitudes.experiment`. -/
structure PastisOutcome where
  events : List PastisEvent
  measured_contrast : List ℚ
  result : Except String Unit
deriving Repr

/-- `PastisModeAmplitudes.experiment` (lines 65-123): after flux
normalization and the coronagraph-floor measurement, raise `ValueError`
when `c_target <= coronagraph_floor`; otherwise loop over the WFE
amplitudes, applying each scaled mode to the IrisAO, taking one coron
exposure, and appending the measured mean dark-hole contrast (given by
the abstract `contrast`). -/
def pastisExperiment (c_target coronagraph_floor : ℚ)
    (wfe_amplitudes : List ℚ) (contrast : ℕ → ℚ) : PastisOutcome :=
  let pre : List PastisEvent := [.flux_normalization, .measure_coronagraph_floor]
  if c_target ≤ coronagraph_floor then
    { events := pre,
      measured_contrast := [],
      result := .error ("Coronagraph floor (" ++ toString coronagraph_floor
        ++ ") cannot be above target contrast (" ++ toString c_target ++ ").") }
  else
    { events := pre ++ (List.range wfe_amplitudes.length).flatMap
        (fun i => [.apply_iris_shape i, .take_exposure i]),
      measured_contrast := (List.range wfe_amplitudes.length).map contrast,
      result := .ok () }

/-! ## Evaluation lemmas for the sweep parameter lists -/

/-- `range(0, 360, 30)` evaluates to the twelve phases. -/
lemma phase_list_eval :
    pyRange 0 360 30 = [0, 30, 60, 90, 120, 150, 180, 210, 240, 270, 300, 330] := by
  decide

/-- `np.arange(0.1, 2.0, 0.3)` evaluates to the seven scaling
coefficients. -/
lemma amplitude_coeff_list_eval :
    npArange (1/10) 2 (3/10) = [1/10, 4/10, 7/10, 1, 13/10, 16/10, 19/10] := by
  have hq : ((2:ℚ) - 1/10) / (3/10) = 19/3 := by norm_num
  have hc : ⌈(19:ℚ)/3⌉ = 7 := by
    rw [Int.ceil_eq_iff]
    constructor
    · norm_num
    · norm_num
  unfold npArange
  rw [hq, hc]
  show List.map _ (List.range 7) = _
  simp [List.range_succ]
  norm_num

/-- Claim C1: in every iteration of `SpeckleNulling.experiment`, the
phase-diverse sweep applies exactly 12 sine DM commands, at phases
0, 30, ..., 330 degrees, and the amplitude sweep applies exactly 7 sine
commands, at peak-to-valley scaling coefficients 0.1, 0.4, 0.7, 1.0,
1.3, 1.6, 1.9, each immediately followed by one imaging call. -/
theorem speckleNulling_sweep_lists (iterPath : String) (e : Quantity)
    (angle nc newPhase : ℚ) (ptv : Quantity) (cur : List ℚ) :
    phaseSweepTrace iterPath e angle nc ptv cur =
      [.applyProbe ⟨angle, nc, ptv, 0⟩ cur, .image e (iterPath ++ "/phase0"),
       .applyProbe ⟨angle, nc, ptv, 30⟩ cur, .image e (iterPath ++ "/phase30"),
       .applyProbe ⟨angle, nc, ptv, 60⟩ cur, .image e (iterPath ++ "/phase60"),
       .applyProbe ⟨angle, nc, ptv, 90⟩ cur, .image e (iterPath ++ "/phase90"),
       .applyProbe ⟨angle, nc, ptv, 120⟩ cur, .image e (iterPath ++ "/phase120"),
       .applyProbe ⟨angle, nc, ptv, 150⟩ cur, .image e (iterPath ++ "/phase150"),
       .applyProbe ⟨angle, nc, ptv, 180⟩ cur, .image e (iterPath ++ "/phase180"),
       .applyProbe ⟨angle, nc, ptv, 210⟩ cur, .image e (iterPath ++ "/phase210"),
       .applyProbe ⟨angle, nc, ptv, 240⟩ cur, .image e (iterPath ++ "/phase240"),
       .applyProbe ⟨angle, nc, ptv, 270⟩ cur, .image e (iterPath ++ "/phase270"),
       .applyProbe ⟨angle, nc, ptv, 300⟩ cur, .image e (iterPath ++ "/phase300"),
       .applyProbe ⟨angle, nc, ptv, 330⟩ cur, .image e (iterPath ++ "/phase330")] ∧
    amplitudeSweepTrace iterPath e angle nc ptv newPhase cur =
      [.applyProbe ⟨angle, nc, ⟨ptv.value * (1/10), ptv.unit⟩, newPhase⟩ cur,
         .image e (iterPath ++ "/amplitude" ++ toString ((1:ℚ)/10)),
       .applyProbe ⟨angle, nc, ⟨ptv.value * (4/10), ptv.unit⟩, newPhase⟩ cur,
         .image e (iterPath ++ "/amplitude" ++ toString ((4:ℚ)/10)),
       .applyProbe ⟨angle, nc, ⟨ptv.value * (7/10), ptv.unit⟩, newPhase⟩ cur,
         .image e (iterPath ++ "/amplitude" ++ toString ((7:ℚ)/10)),
       .applyProbe ⟨angle, nc, ⟨ptv.value * 1, ptv.unit⟩, newPhase⟩ cur,
         .image e (iterPath ++ "/amplitude" ++ toString (1:ℚ)),
       .applyProbe ⟨angle, nc, ⟨ptv.value * (13/10), ptv.unit⟩, newPhase⟩ cur,
         .image e (iterPath ++ "/amplitude" ++ toString ((13:ℚ)/10)),
       .applyProbe ⟨angle, nc, ⟨ptv.value * (16/10), ptv.unit⟩, newPhase⟩ cur,
         .image e (iterPath ++ "/amplitude" ++ toString ((16:ℚ)/10)),
       .applyProbe ⟨angle, nc, ⟨ptv.value * (19/10), ptv.unit⟩, newPhase⟩ cur,
         .image e (iterPath ++ "/amplitude" ++ toString ((19:ℚ)/10))] := by
  constructor
  · simp only [phaseSweepTrace, phase_list_eval, List.flatMap_cons, List.flatMap_nil,
      List.cons_append, List.nil_append, String.append_assoc]
    norm_num
    exact ⟨rfl, rfl, rfl, rfl, rfl, rfl, rfl, rfl, rfl, rfl, rfl, rfl⟩
  · simp only [amplitudeSweepTrace, amplitude_coeff_list_eval, List.flatMap_cons,
      List.flatMap_nil, List.cons_append, List.nil_append]

/-- Claim C2: at the end of every iteration, the running DM command data
is updated by element-wise addition of the data of a single new sine
command built from the sensed angle, sensed cycle count, fitted
amplitude in nanometers and fitted phase, and the state carried into the
next iteration is exactly this accumulated sum. -/
theorem speckleNulling_correction_accumulation (env : SpeckleEnv)
    (path ex : String) (i : ℕ) (cur cur0 : List ℚ) (t t0 : Quantity) (k : ℕ) :
    (speckleIteration env path ex i cur t).2.1 =
      List.zipWith (· + ·) cur (env.sin_data
        ⟨(env.speckle_sensing i).2.1, (env.speckle_sensing i).1,
         ⟨env.speckle_control_amplitude i, PhysUnit.nanometer⟩,
         env.speckle_control_phase i⟩) ∧
    (speckleStateFrom env path ex 0 cur0 t0 (k + 1)).1 =
      List.zipWith (· + ·) (speckleStateFrom env path ex 0 cur0 t0 k).1
        (env.sin_data
          ⟨(env.speckle_sensing k).2.1, (env.speckle_sensing k).1,
           ⟨env.speckle_control_amplitude k, PhysUnit.nanometer⟩,
           env.speckle_control_phase k⟩) ∧
    (speckleLoop env path ex i 1 cur t).2.1 =
      (speckleIteration env path ex i cur t).2.1 := by
  refine ⟨rfl, ?_, ?_⟩
  · simp [speckleStateFrom, speckleIteration]
  · simp [speckleLoop]

/-- Claim C8: the initial DM command of `SpeckleNulling.experiment` is
chosen by strict precedence — a truthy `dm_command_path` loads from disk
and ignores `initial_speckles`; otherwise a non-`None`
`initial_speckles` builds a sine command; otherwise a flat-map/bias
command is used. -/
theorem speckleNulling_initial_command_precedence (p q : Option String)
    (sp sp' : Option SinSpecification) (spec : SinSpecification)
    (bias flat_map : Bool) :
    (truthyStr p = true →
      initialCommand p sp bias flat_map = .loaded (p.getD "") bias flat_map) ∧
    (truthyStr p = true →
      initialCommand p sp bias flat_map = initialCommand p sp' bias flat_map) ∧
    (truthyStr q = false →
      initialCommand q (some spec) bias flat_map = .sine spec bias flat_map) ∧
    (truthyStr q = false →
      initialCommand q none bias flat_map = .flat bias flat_map) := by
  refine ⟨?_, ?_, ?_, ?_⟩
  · intro hp
    simp [initialCommand, hp]
  · intro hp
    simp [initialCommand, hp]
  · intro hq
    simp [initialCommand, hq]
  · intro hq
    simp [initialCommand, hq]

/-- The default `initial_speckles` argument of `SpeckleNulling.__init__`:
`SinSpecification(10, 12, quantity(25, units.nanometer), 90)`. -/
def defaultInitialSpeckles : SinSpecification :=
  ⟨10, 12, ⟨25, PhysUnit.nanometer⟩, 90⟩

/-- Concrete instantiation of the initial-command precedence theorem. -/
theorem speckleNulling_initial_command_precedence_witness :
    initialCommand (some ("dm.fits")) (some defaultInitialSpeckles) false true =
      .loaded ("dm.fits") false true ∧
    initialCommand none (some defaultInitialSpeckles) false true =
      .sine defaultInitialSpeckles false true ∧
    initialCommand none none false true = .flat false true :=
  ⟨(speckleNulling_initial_command_precedence (some ("dm.fits")) none
      (some defaultInitialSpeckles) none defaultInitialSpeckles false true).1 (by decide),
   (speckleNulling_initial_command_precedence (some ("dm.fits")) none
      (some defaultInitialSpeckles) none defaultInitialSpeckles false true).2.2.1 (by decide),
   (speckleNulling_initial_command_precedence (some ("dm.fits")) none
      (some defaultInitialSpeckles) none defaultInitialSpeckles false true).2.2.2 (by decide)⟩

/-! ## The loop structure of `SpeckleNulling.experiment` -/

/-- Starting the state recursion one iteration later, from the state the
first iteration produced, matches the direct recursion. -/
lemma speckleStateFrom_shift (env : SpeckleEnv) (path ex : String)
    (i : ℕ) (cur : List ℚ) (t : Quantity) : ∀ k : ℕ,
    speckleStateFrom env path ex (i + 1)
      (speckleIteration env path ex i cur t).2.1
      (speckleIteration env path ex i cur t).2.2 k
    = speckleStateFrom env path ex i cur t (k + 1) := by
  intro k
  induction k with
  | zero => simp [speckleStateFrom]
  | succ k ih =>
    have hidx : i + 1 + k = i + (k + 1) := by omega
    simp only [speckleStateFrom]
    rw [ih, hidx]
    simp only [speckleStateFrom]

/-- The trace of the loop is the concatenation, over the iteration
indices in order, of the per-iteration traces evaluated at the running
state. -/
lemma speckleLoop_trace (env : SpeckleEnv) (path ex : String) :
    ∀ (n i : ℕ) (cur : List ℚ) (t : Quantity),
    (speckleLoop env path ex i n cur t).1 =
      (List.range n).flatMap (fun k =>
        (speckleIteration env path ex (i + k)
          (speckleStateFrom env path ex i cur t k).1
          (speckleStateFrom env path ex i cur t k).2).1) := by
  intro n
  induction n with
  | zero =>
    intro i cur t
    simp [speckleLoop]
  | succ n ih =>
    intro i cur t
    rw [List.range_succ_eq_map]
    simp only [speckleLoop, List.flatMap_cons, List.flatMap_map]
    rw [ih]
    congr 1
    refine congrArg (fun f => (List.range n).flatMap f) (funext fun k => ?_)
    rw [speckleStateFrom_shift]
    have hidx : i + 1 + k = i + (k + 1) := by omega
    rw [hidx]

/-- Claim C3: `SpeckleNulling.experiment` executes its main loop exactly
`num_iterations` times, and each iteration performs, in order: apply
the current DM command, test the dark-zone intensity (updating the auto
exposure time), take a coronagraphic image set, run speckle sensing,
the phase sweep, phase control, the amplitude sweep, amplitude control,
and the correction accumulation. -/
theorem speckleNulling_loop_structure (env : SpeckleEnv) (path ex : String)
    (num_iterations : ℕ) (cur0 : List ℚ) (t0 : Quantity) :
    (speckleExperimentTrace env path ex num_iterations cur0 t0).1 =
      (List.range num_iterations).flatMap (fun i =>
        let s := speckleStateFrom env path ex 0 cur0 t0 i
        let expTime2 := env.test_dark_zone_intensity i s.2
        let iterPath := path ++ "/iteration" ++ toString i
        let sensed := env.speckle_sensing i
        [SpeckleEvent.applyShape s.1, .testDarkZone, .image expTime2 iterPath,
         .sense (iterPath ++ "/" ++ ex)]
          ++ phaseSweepTrace iterPath expTime2 sensed.2.1 sensed.1 sensed.2.2 s.1
          ++ [.controlPhase]
          ++ amplitudeSweepTrace iterPath expTime2 sensed.2.1 sensed.1 sensed.2.2
              (env.speckle_control_phase i) s.1
          ++ [.controlAmplitude,
              .accumulate ⟨sensed.2.1, sensed.1,
                ⟨env.speckle_control_amplitude i, PhysUnit.nanometer⟩,
                env.speckle_control_phase i⟩]) := by
  rw [speckleExperimentTrace, speckleLoop_trace]
  refine congrArg (fun f => (List.range _).flatMap f) (funext fun k => ?_)
  simp only [Nat.zero_add, speckleIteration]

/-- Claim C5: used as a context manager, a `LaserSource` opens the
connection on entry, and on exit calls `close()` exactly once and sets
the laser handle to `None` — also when the body raises, in which case
the raised exception still propagates. -/
theorem laserSource_scoped_cleanup {α : Type} (cfg : String) (handle : ℤ)
    (body : LaserSource → BodyOutcome α × LaserSource) :
    (LaserSource.init cfg handle).laser = some handle ∧
    (LaserSource.withLaser cfg handle body).2.laser = none ∧
    (LaserSource.withLaser cfg handle body).2.closeCount
      = (body (LaserSource.init cfg handle)).2.closeCount + 1 ∧
    (LaserSource.withLaser cfg handle body).1
      = (body (LaserSource.init cfg handle)).1 ∧
    (∀ (msg : String) (f : LaserSource → LaserSource),
      (LaserSource.withLaser cfg handle
          (fun s => ((BodyOutcome.raised msg : BodyOutcome α), f s))).2.laser
        = none ∧
      (LaserSource.withLaser cfg handle
          (fun s => ((BodyOutcome.raised msg : BodyOutcome α), f s))).1
        = BodyOutcome.raised msg) :=
  ⟨rfl, rfl, rfl, rfl, fun _ _ => ⟨rfl, rfl⟩⟩

/-- Claim C6: `take_exposures` performs, in order: open the laser scope,
set the laser current (`coron_current` when `coronograph` is true,
`direct_current` otherwise), open the DM scope, apply the DM shapes to
both DMs, run the imaging call saving to the resolved path — with both
scopes still open — and only then close the scopes. -/
theorem take_exposures_hardware_order (env : GeneralEnv) (coronograph : Bool)
    (path suffix exposure_set_name : Option String) :
    let tr := take_exposures env coronograph path suffix exposure_set_name
    tr.length = 7 ∧
    tr.get? 0 = some .laser_opened ∧
    tr.get? 1 = some (.set_current
      (if coronograph then env.coron_current else env.direct_current)) ∧
    tr.get? 2 = some .dm_opened ∧
    tr.get? 3 = some .apply_shape_to_both ∧
    tr.get? 4 = some (.run_hicat_imaging
      (match path with
       | some p => p
       | none => env.create_data_path
          (match suffix with
           | none => "take_exposures_data"
           | some s => "take_exposures_data_" ++ s))
      (match exposure_set_name with
       | some e => e
       | none => if coronograph then "coron" else "direct")) ∧
    tr.get? 5 = some .dm_closed ∧
    tr.get? 6 = some .laser_closed :=
  ⟨rfl, rfl, rfl, rfl, rfl, rfl, rfl, rfl⟩

/-- Claim C9: `goto_real` and `offset_real` divide by the conversion
factor and delegate to the step-based moves; `absolute_move` and
`relative_move` dispatch on the unit exactly to these functions and
raise `NotImplementedError` for a non-`Unit` argument; and
`get_position` returns `conversionFactor * get_enc_position()`. -/
theorem stage_unit_dispatch_equivalences (lib : Stage.PyximcLib)
    (conversionFactor position distance : ℚ) (wait : Bool) :
    Stage.goto_real lib conversionFactor position wait
      = Stage.goto_steps lib (position / conversionFactor) wait ∧
    Stage.offset_real lib conversionFactor distance wait
      = Stage.offset_steps lib (distance / conversionFactor) wait ∧
    Stage.absolute_move lib conversionFactor position wait (some .STEPS)
      = Stage.goto_steps lib position wait ∧
    Stage.absolute_move lib conversionFactor position wait (some .REAL)
      = Stage.goto_real lib conversionFactor position wait ∧
    Stage.absolute_move lib conversionFactor position wait none
      = ([], .error ("NotImplementedError")) ∧
    Stage.relative_move lib conversionFactor distance wait (some .STEPS)
      = Stage.offset_steps lib distance wait ∧
    Stage.relative_move lib conversionFactor distance wait (some .REAL)
      = Stage.offset_real lib conversionFactor distance wait ∧
    Stage.relative_move lib conversionFactor distance wait none
      = ([], .error ("NotImplementedError")) ∧
    (Stage.get_position lib conversionFactor).2
      = (Stage.get_enc_position lib).2.map
          (fun e => conversionFactor * (e : ℚ)) := by
  refine ⟨rfl, rfl, rfl, rfl, rfl, rfl, rfl, rfl, ?_⟩
  by_cases hres : lib.get_position.1 ≠ Stage.ResultOk <;>
    simp [Stage.get_position, Stage.get_enc_position, hres, Except.map]

/-- Claim C10: `PastisModeAmplitudes.experiment` raises `ValueError`
whenever the target contrast is at most the measured coronagraph floor,
and in that case no WFE amplitude has been applied to the IrisAO, no
per-amplitude exposure has been taken, and `measured_contrast` is still
empty. -/
theorem pastis_low_target_raises_early (c_target coronagraph_floor : ℚ)
    (wfe_amplitudes : List ℚ) (contrast : ℕ → ℚ)
    (hle : c_target ≤ coronagraph_floor) :
    (pastisExperiment c_target coronagraph_floor wfe_amplitudes contrast).result
      = .error ("Coronagraph floor (" ++ toString coronagraph_floor
          ++ ") cannot be above target contrast (" ++ toString c_target ++ ").") ∧
    (pastisExperiment c_target coronagraph_floor wfe_amplitudes
        contrast).measured_contrast = [] ∧
    (pastisExperiment c_target coronagraph_floor wfe_amplitudes contrast).events
      = [.flux_normalization, .measure_coronagraph_floor] ∧
    (∀ i : ℕ,
      PastisEvent.apply_iris_shape i ∉
        (pastisExperiment c_target coronagraph_floor wfe_amplitudes
          contrast).events ∧
      PastisEvent.take_exposure i ∉
        (pastisExperiment c_target coronagraph_floor wfe_amplitudes
          contrast).events) := by
  refine ⟨?_, ?_, ?_, fun i => ⟨?_, ?_⟩⟩ <;>
    simp [pastisExperiment, hle]

/-- Concrete instantiation of the early-`ValueError` theorem, at a target
contrast equal to the coronagraph floor. -/
theorem pastis_low_target_raises_early_witness :
    (pastisExperiment 0 0 [1] (fun _ => 0)).measured_contrast = [] ∧
    (pastisExperiment 0 0 [1] (fun _ => 0)).events
      = [.flux_normalization, .measure_coronagraph_floor] :=
  ⟨(pastis_low_target_raises_early 0 0 [1] (fun _ => 0) (le_refl 0)).2.1,
   (pastis_low_target_raises_early 0 0 [1] (fun _ => 0) (le_refl 0)).2.2.1⟩

/-! ## Stage error translation and polling -/

/-- The polling loop's only outcomes: success, a failed status read, or
a timeout. -/
lemma pollLoop_result (targets : List Bool) (lib : Stage.PyximcLib) :
    ∀ (fuel k : ℕ),
    (Stage.pollLoop targets lib k fuel).2 = .ok () ∨
    (Stage.pollLoop targets lib k fuel).2 = .error ("get_status() failed") ∨
    (Stage.pollLoop targets lib k fuel).2 = .error ("Timed out") := by
  intro fuel
  induction fuel with
  | zero => intro k; right; right; rfl
  | succ fuel ih =>
    intro k
    by_cases h : (lib.get_status k).1 ≠ Stage.ResultOk
    · right; left
      simp [Stage.pollLoop, Stage.is_moving_at, h]
    · by_cases hmem : (decide ((lib.get_status k).2 = 129)) ∈ targets
      · left
        simp [Stage.pollLoop, Stage.is_moving_at, h, hmem]
      · have := ih (k + 1)
        simpa [Stage.pollLoop, Stage.is_moving_at, h, hmem] using this

/-- The polling loop only ever issues `get_status` vendor calls. -/
lemma pollLoop_trace_replicate (targets : List Bool) (lib : Stage.PyximcLib) :
    ∀ (fuel k : ℕ), ∃ m : ℕ,
    (Stage.pollLoop targets lib k fuel).1
      = List.replicate m Stage.VendorCall.get_status := by
  intro fuel
  induction fuel with
  | zero => intro k; exact ⟨0, rfl⟩
  | succ fuel ih =>
    intro k
    by_cases h : (lib.get_status k).1 ≠ Stage.ResultOk
    · exact ⟨1, by simp [Stage.pollLoop, Stage.is_moving_at, h]⟩
    · by_cases hmem : (decide ((lib.get_status k).2 = 129)) ∈ targets
      · exact ⟨1, by simp [Stage.pollLoop, Stage.is_moving_at, h, hmem]⟩
      · obtain ⟨m, hm⟩ := ih (k + 1)
        refine ⟨m + 1, ?_⟩
        simp [Stage.pollLoop, Stage.is_moving_at, h, hmem, hm, List.replicate_succ]

/-- If the stage reports "moving" for the first `n` polls and then stops,
the polling loop makes exactly `n + 1` status polls and succeeds. -/
lemma pollLoop_stops (lib : Stage.PyximcLib) :
    ∀ (n k fuel : ℕ),
    (∀ j, j < n → lib.get_status (k + j) = (Stage.ResultOk, 129)) →
    (lib.get_status (k + n)).1 = Stage.ResultOk →
    (lib.get_status (k + n)).2 ≠ 129 →
    n < fuel →
    Stage.pollLoop [false] lib k fuel
      = (List.replicate (n + 1) Stage.VendorCall.get_status, .ok ()) := by
  intro n
  induction n with
  | zero =>
    intro k fuel hpoll hok hstop hfuel
    simp only [Nat.add_zero] at hok hstop
    obtain ⟨f, rfl⟩ : ∃ f, fuel = f + 1 := ⟨fuel - 1, by omega⟩
    have hok' : ¬ ((lib.get_status k).1 ≠ Stage.ResultOk) := by
      simpa using hok
    simp [Stage.pollLoop, Stage.is_moving_at, hok', hstop]
  | succ n ih =>
    intro k fuel hpoll hok hstop hfuel
    obtain ⟨f, rfl⟩ : ∃ f, fuel = f + 1 := ⟨fuel - 1, by omega⟩
    have h0 : lib.get_status k = (Stage.ResultOk, 129) := by
      simpa using hpoll 0 (by omega)
    have hrec := ih (k + 1) f
      (fun j hj => by
        have := hpoll (j + 1) (by omega)
        simpa [Nat.add_assoc, Nat.add_comm 1 j] using this)
      (by
        have : k + 1 + n = k + (n + 1) := by omega
        rw [this]; exact hok)
      (by
        have : k + 1 + n = k + (n + 1) := by omega
        rw [this]; exact hstop)
      (by omega)
    simp [Stage.pollLoop, Stage.is_moving_at, h0, hrec, List.replicate_succ]

/-- The default `await_stop` budget: 600 seconds at one poll per second. -/
lemma await_stop_default_fuel :
    Int.toNat ⌈((10 * 60 : ℚ)) / 1⌉ = 600 := by
  have h : ((10 * 60 : ℚ)) / 1 = ((600 : ℤ) : ℚ) := by norm_num
  rw [h, Int.ceil_intCast]
  rfl

/-- Claim C7: `goto_steps` with `wait=True`, after a successful move
command, calls `await_stop`, which polls `is_moving` once per
`poll_interval` (default 1 s) until it returns `False`, within the fixed
default timeout of 600 s; with `wait=False` no wait occurs. -/
theorem stage_waits_are_polling_loops (lib : Stage.PyximcLib) (position : ℚ)
    (n : ℕ)
    (hmove : lib.command_move (modf position).2 (pyTrunc ((modf position).1 * 256))
      = Stage.ResultOk)
    (hpoll : ∀ j, j < n → lib.get_status j = (Stage.ResultOk, 129))
    (hstop_ok : (lib.get_status n).1 = Stage.ResultOk)
    (hstop : (lib.get_status n).2 ≠ 129)
    (hn : n < 600) :
    (Stage.goto_steps lib position false).1
      = [.command_move (modf position).2 (pyTrunc ((modf position).1 * 256))] ∧
    (Stage.goto_steps lib position true).1
      = .command_move (modf position).2 (pyTrunc ((modf position).1 * 256))
          :: (Stage.await_stop lib (10 * 60) 1).1 ∧
    (Stage.goto_steps lib position true).2 = (Stage.await_stop lib (10 * 60) 1).2 ∧
    Stage.await_stop lib (10 * 60) 1
      = (List.replicate (n + 1) Stage.VendorCall.get_status, .ok ()) := by
  have hmove' : ¬ (lib.command_move (modf position).2
      (pyTrunc ((modf position).1 * 256)) ≠ Stage.ResultOk) := by
    simpa using hmove
  have hawait : Stage.await_stop lib (10 * 60) 1
      = (List.replicate (n + 1) Stage.VendorCall.get_status, .ok ()) := by
    rw [Stage.await_stop, Stage.poll_status, await_stop_default_fuel]
    exact pollLoop_stops lib n 0 600
      (fun j hj => by simpa using hpoll j hj)
      (by simpa using hstop_ok) (by simpa using hstop) hn
  refine ⟨?_, ?_, ?_, hawait⟩
  · simp [Stage.goto_steps, hmove']
  · simp [Stage.goto_steps, hmove']
  · simp [Stage.goto_steps, hmove']

/-- Claim C4: `goto_steps` raises `RuntimeError("command_move() failed")`
exactly when the vendor `command_move` returns a non-Ok result, sending
the move command exactly once (no retry); and each other `Stage`
operation raises its own fixed message exactly when the corresponding
vendor call (as reached) returns a non-Ok code. -/
theorem stage_errors_iff_vendor_failure (lib : Stage.PyximcLib)
    (position speed homeOffset : ℚ) (wait : Bool) :
    ((Stage.goto_steps lib position wait).2 = .error ("command_move() failed")
      ↔ lib.command_move (modf position).2 (pyTrunc ((modf position).1 * 256))
          ≠ Stage.ResultOk) ∧
    ((Stage.goto_steps lib position wait).1.count
        (.command_move (modf position).2 (pyTrunc ((modf position).1 * 256))) = 1) ∧
    ((Stage.home lib homeOffset).2 = .error ("get_home_settings() failed")
      ↔ lib.get_home_settings ≠ Stage.ResultOk) ∧
    (lib.get_home_settings = Stage.ResultOk →
      ((Stage.home lib homeOffset).2 = .error ("set_home_settings() failed")
        ↔ lib.set_home_settings (modf homeOffset).2 (pyTrunc (modf homeOffset).1)
            ≠ Stage.ResultOk)) ∧
    (lib.get_home_settings = Stage.ResultOk →
      lib.set_home_settings (modf homeOffset).2 (pyTrunc (modf homeOffset).1)
          = Stage.ResultOk →
      ((Stage.home lib homeOffset).2 = .error ("command_homezero failed")
        ↔ lib.command_homezero ≠ Stage.ResultOk)) ∧
    ((Stage.set_speed lib speed).2 = .error ("get_move_settings() failed")
      ↔ lib.get_move_settings.1 ≠ Stage.ResultOk) ∧
    (lib.get_move_settings.1 = Stage.ResultOk →
      ((Stage.set_speed lib speed).2 = .error ("set_move_settings() failed")
        ↔ lib.set_move_settings (modf speed).2 (pyTrunc ((modf speed).1 * 256))
            ≠ Stage.ResultOk)) ∧
    ((Stage.get_speed lib).2 = .error ("get_move_settings() failed")
      ↔ lib.get_move_settings.1 ≠ Stage.ResultOk) ∧
    ((Stage.is_moving lib).2 = .error ("get_status() failed")
      ↔ (lib.get_status 0).1 ≠ Stage.ResultOk) ∧
    ((Stage.get_step_position lib).2 = .error ("get_position() failed")
      ↔ lib.get_position.1 ≠ Stage.ResultOk) ∧
    ((Stage.get_enc_position lib).2 = .error ("get_position() failed")
      ↔ lib.get_position.1 ≠ Stage.ResultOk) ∧
    ((Stage.stop lib).2 = .error ("Soft stop failed")
      ↔ lib.command_sstp ≠ Stage.ResultOk) := by
  refine ⟨?_, ?_, ?_, ?_, ?_, ?_, ?_, ?_, ?_, ?_, ?_, ?_⟩
  · by_cases h : lib.command_move (modf position).2
        (pyTrunc ((modf position).1 * 256)) ≠ Stage.ResultOk
    · simp [Stage.goto_steps, h]
    · cases wait <;>
        rcases pollLoop_result [false] lib
          (Int.toNat ⌈(10 * 60 : ℚ)⌉) 0 with hres | hres | hres <;>
        simp [Stage.goto_steps, h, Stage.await_stop, Stage.poll_status, hres]
  · by_cases h : lib.command_move (modf position).2
        (pyTrunc ((modf position).1 * 256)) ≠ Stage.ResultOk
    · simp [Stage.goto_steps, h]
    · obtain ⟨m, hm⟩ := pollLoop_trace_replicate [false] lib
        (Int.toNat ⌈(10 * 60 : ℚ)⌉) 0
      cases wait
      · simp [Stage.goto_steps, h]
      · simp [Stage.goto_steps, h, Stage.await_stop, Stage.poll_status, hm,
          List.count_cons, List.count_eq_zero, List.mem_replicate]
  · by_cases h : lib.get_home_settings ≠ Stage.ResultOk <;>
      by_cases h2 : lib.set_home_settings (modf homeOffset).2
          (pyTrunc (modf homeOffset).1) ≠ Stage.ResultOk <;>
      by_cases h3 : lib.command_homezero ≠ Stage.ResultOk <;>
      simp [Stage.home, h, h2, h3]
  · intro hg
    have hg' : ¬ (lib.get_home_settings ≠ Stage.ResultOk) := by simpa using hg
    by_cases h2 : lib.set_home_settings (modf homeOffset).2
        (pyTrunc (modf homeOffset).1) ≠ Stage.ResultOk <;>
      by_cases h3 : lib.command_homezero ≠ Stage.ResultOk <;>
      simp [Stage.home, hg', h2, h3]
  · intro hg hs
    have hg' : ¬ (lib.get_home_settings ≠ Stage.ResultOk) := by simpa using hg
    have hs' : ¬ (lib.set_home_settings (modf homeOffset).2
        (pyTrunc (modf homeOffset).1) ≠ Stage.ResultOk) := by simpa using hs
    by_cases h3 : lib.command_homezero ≠ Stage.ResultOk <;>
      simp [Stage.home, hg', hs', h3]
  · by_cases h : lib.get_move_settings.1 ≠ Stage.ResultOk <;>
      by_cases h2 : lib.set_move_settings (modf speed).2
          (pyTrunc ((modf speed).1 * 256)) ≠ Stage.ResultOk <;>
      simp [Stage.set_speed, h, h2]
  · intro hg
    have hg' : ¬ (lib.get_move_settings.1 ≠ Stage.ResultOk) := by simpa using hg
    by_cases h2 : lib.set_move_settings (modf speed).2
        (pyTrunc ((modf speed).1 * 256)) ≠ Stage.ResultOk <;>
      simp [Stage.set_speed, hg', h2]
  · by_cases h : lib.get_move_settings.1 ≠ Stage.ResultOk <;>
      simp [Stage.get_speed, h]
  · by_cases h : (lib.get_status 0).1 ≠ Stage.ResultOk <;>
      simp [Stage.is_moving, Stage.is_moving_at, h]
  · by_cases h : lib.get_position.1 ≠ Stage.ResultOk <;>
      simp [Stage.get_step_position, h]
  · by_cases h : lib.get_position.1 ≠ Stage.ResultOk <;>
      simp [Stage.get_enc_position, h]
  · by_cases h : lib.command_sstp ≠ Stage.ResultOk <;>
      simp [Stage.stop, h]

/-- A vendor library whose state reads succeed but whose commands fail. -/
def failingLib : Stage.PyximcLib :=
  { command_move := fun _ _ => 1
    command_homezero := 1
    command_sstp := 1
    get_status := fun _ => (0, 0)
    get_move_settings := (0, 5, 0)
    set_move_settings := fun _ _ => 1
    get_position := (0, 0, 0, 0)
    get_home_settings := 0
    set_home_settings := fun _ _ => 0 }

/-- Concrete instantiation of the error-translation theorem. -/
theorem stage_errors_iff_vendor_failure_witness :
    (Stage.goto_steps failingLib (5/2) true).2 = .error ("command_move() failed") ∧
    (Stage.home failingLib (5/2)).2 = .error ("command_homezero failed") ∧
    (Stage.set_speed failingLib 3).2 = .error ("set_move_settings() failed") ∧
    (Stage.stop failingLib).2 = .error ("Soft stop failed") :=
  ⟨(stage_errors_iff_vendor_failure failingLib (5/2) 3 (5/2) true).1.mpr (by decide),
   ((stage_errors_iff_vendor_failure failingLib (5/2) 3 (5/2) true).2.2.2.2.1
      (by decide) (by decide)).mpr (by decide),
   ((stage_errors_iff_vendor_failure failingLib (5/2) 3 (5/2) true).2.2.2.2.2.2.1
      (by decide)).mpr (by decide),
   (stage_errors_iff_vendor_failure failingLib (5/2) 3 (5/2)
      true).2.2.2.2.2.2.2.2.2.2.2.mpr (by decide)⟩

/-- A vendor library whose calls all succeed and whose stage never
reports motion. -/
def idleLib : Stage.PyximcLib :=
  { command_move := fun _ _ => 0
    command_homezero := 0
    command_sstp := 0
    get_status := fun _ => (0, 0)
    get_move_settings := (0, 5, 0)
    set_move_settings := fun _ _ => 0
    get_position := (0, 0, 0, 0)
    get_home_settings := 0
    set_home_settings := fun _ _ => 0 }

/-- Concrete instantiation of the polling-wait theorem: an idle stage is
polled exactly once. -/
theorem stage_waits_are_polling_loops_witness :
    Stage.await_stop idleLib (10 * 60) 1
      = (List.replicate 1 Stage.VendorCall.get_status, .ok ()) ∧
    (Stage.goto_steps idleLib (5/2) false).1.length = 1 :=
  ⟨(stage_waits_are_polling_loops idleLib (5/2) 0 (by decide) (by decide)
      (by decide) (by decide) (by decide)).2.2.2,
   by
    rw [(stage_waits_are_polling_loops idleLib (5/2) 0 (by decide) (by decide)
      (by decide) (by decide) (by decide)).1]
    rfl⟩
